import Mathlib

/-!
Verification of the resilient data-access and geospatial query engine of
sg-bus-bot (src/bot.js, latest revision starting at line 584 of the file).

The JavaScript is shallowly embedded: pure functions become Lean functions,
network I/O is abstracted by explicit oracles (a function from the request
parameters to the outcome of that request), timestamps are integers in
milliseconds, and the float64 haversine kernel is abstracted as a
rational-valued distance function passed in as a parameter.  Every sleep and
every outbound HTTP attempt performed by a modelled function is returned as
part of an explicit trace so that temporal claims (backoff delays, pagination
pauses, header rotation) become claims about the trace.
-/

namespace SgBusBot

/-- Decidable equality on Except, needed to evaluate the models on concrete
oracles. -/
instance {E P : Type} [DecidableEq E] [DecidableEq P] : DecidableEq (Except E P) :=
  fun x y =>
    match x, y with
    | .ok a, .ok b =>
      if h : a = b then isTrue (by rw [h]) else isFalse (fun hh => h (by cases hh; rfl))
    | .ok _, .error _ => isFalse (fun hh => by cases hh)
    | .error _, .ok _ => isFalse (fun hh => by cases hh)
    | .error a, .error b =>
      if h : a = b then isTrue (by rw [h]) else isFalse (fun hh => h (by cases hh; rfl))

/-- JavaScript Math.round: nearest integer, halves toward positive infinity,
so Math.round q = floor (q + 1/2); written on the numerator and denominator so
that the kernel can evaluate it, and proved equal to the floor form below. -/
def jsRound (q : ℚ) : ℤ := (2 * q.num + q.den) / (2 * (q.den : ℤ))

/-- Sanity check that jsRound is the floor of q + 1/2. -/
theorem jsRound_eq_floor (q : ℚ) : jsRound q = ⌊q + 1/2⌋ := by
  unfold jsRound
  have h : q + 1/2 = (((2 * q.num + (q.den : ℤ) : ℤ) : ℚ)) / (((2 * q.den : ℕ)) : ℚ) := by
    conv_lhs => rw [← Rat.num_div_den q]
    have hden : ((q.den : ℚ)) ≠ 0 := Nat.cast_ne_zero.mpr q.den_nz
    push_cast
    field_simp
    ring
  rw [h, Rat.floor_intCast_div_natCast]
  push_cast
  ring_nf

/-- SEARCH_RADIUS constant, src/bot.js line 628 (default search radius, metres). -/
def SEARCH_RADIUS : ℚ := 200

/-- MAX_BUS_STOPS constant, src/bot.js line 629 (global cap on nearby stops). -/
def MAX_BUS_STOPS : Nat := 5

/-- One record of the bus-stop dataset as consumed by the proximity query
(fields BusStopCode, Description, Latitude, Longitude).  Coordinates are
rationals standing in for the JSON numbers. -/
structure BusStop where
  BusStopCode : String
  Description : String
  Latitude : ℚ
  Longitude : ℚ
deriving DecidableEq

/-- A stop as returned by findNearbyBusStops: the spread of the stop record
plus the derived field distance = Math.round(raw distance), src/bot.js 892-895. -/
structure RankedStop where
  stop : BusStop
  distance : ℤ
deriving DecidableEq

/-- Shallow embedding of findNearbyBusStops (src/bot.js 884-903).  The float64
haversine computed by calculateDistance (src/bot.js 646-659) is abstracted as
the parameter dist (arguments: userLat userLng stopLat stopLng); the claims
proved below hold for every such distance function.  The JS loop pushes each
stop whose raw distance is at most the radius, spread with its rounded
distance, then sorts by the rounded distance field with the stable Array.sort
comparator (a, b) => a.distance - b.distance and slices to MAX_BUS_STOPS;
a stable sort is modelled by insertion sort. -/
def findNearbyBusStops (dist : ℚ → ℚ → ℚ → ℚ → ℚ) (userLat userLng : ℚ)
    (busStops : List BusStop) (radiusMeters : ℚ) : List RankedStop :=
  let nearby := (busStops.filter fun stop =>
      decide (dist userLat userLng stop.Latitude stop.Longitude ≤ radiusMeters)).map
    fun stop => ⟨stop, jsRound (dist userLat userLng stop.Latitude stop.Longitude)⟩
  (List.insertionSort (fun a b => a.distance ≤ b.distance) nearby).take MAX_BUS_STOPS

/-- The quantity diffMinutes = Math.round((arrival - now) / (1000 * 60)) of
formatArrivalTime (src/bot.js 670), with both timestamps in integer
milliseconds; floor ((x / 60000) + 1/2) equals the Euclidean division of
x + 30000 by the positive constant 60000 (proved below). -/
def diffMinutes (now arrival : ℤ) : ℤ := (arrival - now + 30000) / 60000

/-- Sanity check that diffMinutes is exactly jsRound of the minute difference. -/
theorem diffMinutes_eq_jsRound (now arrival : ℤ) :
    diffMinutes now arrival = jsRound ((arrival - now : ℚ) / 60000) := by
  unfold diffMinutes
  rw [jsRound_eq_floor]
  have h : ((arrival - now : ℚ)) / 60000 + 1/2 =
      (((arrival - now + 30000 : ℤ) : ℚ)) / ((60000 : ℕ) : ℚ) := by
    push_cast
    ring
  rw [h, Rat.floor_intCast_div_natCast]
  norm_num

/-- Shallow embedding of formatArrivalTime (src/bot.js 661-676).  The input is
the optional EstimatedArrival string; JavaScript Date parsing is abstracted by
the oracle parse (none models an invalid date, i.e. isNaN(arrival.getTime())),
and now is the current time in milliseconds.  A missing value models a falsy
arrivalTime and the empty string is compared explicitly as in the source. -/
def formatArrivalTime (parse : String → Option ℤ) (now : ℤ)
    (arrivalTime : Option String) : String :=
  match arrivalTime with
  | none => "No data"
  | some s =>
    if s = "" then "No data"
    else
      match parse s with
      | none => "No data"
      | some arrival =>
        let d := diffMinutes now arrival
        if d ≤ 0 then "Arriving"
        else if d = 1 then "1 min"
        else if d > 60 then "No data"
        else toString d ++ " mins"

/-- Value of the leading decimal digits of a character list, as JavaScript
parseInt accumulates them in radix 10; none when no digit has been seen. -/
def digitsVal : List Char → Option ℕ → Option ℕ
  | [], acc => acc
  | c :: cs, acc =>
    if c.isDigit then digitsVal cs (some ((acc.getD 0) * 10 + (c.toNat - 48)))
    else acc

/-- Value of a hexadecimal digit character, case-insensitive; none otherwise. -/
def hexDigitVal (c : Char) : Option ℕ :=
  if c.isDigit then some (c.toNat - 48)
  else if 'a' ≤ c ∧ c ≤ 'f' then some (c.toNat - 87)
  else if 'A' ≤ c ∧ c ≤ 'F' then some (c.toNat - 55)
  else none

/-- Value of the leading hexadecimal digits of a character list, as JavaScript
parseInt accumulates them in radix 16; none when no digit has been seen. -/
def hexVal : List Char → Option ℕ → Option ℕ
  | [], acc => acc
  | c :: cs, acc =>
    match hexDigitVal c with
    | some d => hexVal cs (some ((acc.getD 0) * 16 + d))
    | none => acc

/-- Magnitude of ECMA-262 parseInt with undefined radix, after whitespace and
sign: a string beginning 0x or 0X is read as the longest run of radix-16
digits after the prefix (none when no hex digit follows), anything else as the
longest run of radix-10 digits. -/
def jsParseIntCore : List Char → Option ℕ
  | '0' :: 'x' :: cs => hexVal cs none
  | '0' :: 'X' :: cs => hexVal cs none
  | cs => digitsVal cs none

/-- JavaScript parseInt with undefined radix, per ECMA-262: skip leading
whitespace, optional sign, mandatory radix-16 auto-detection on a 0x/0X
prefix, otherwise radix 10; none models NaN. -/
def jsParseInt (s : String) : Option ℤ :=
  match (s.toList.dropWhile Char.isWhitespace) with
  | '-' :: cs => (jsParseIntCore cs).map fun n => -(n : ℤ)
  | '+' :: cs => (jsParseIntCore cs).map fun n => (n : ℤ)
  | cs => (jsParseIntCore cs).map fun n => (n : ℤ)

/-- Sort key parseInt(service.ServiceNo) || 999 of the arrival comparator
(src/bot.js 947-948): NaN is falsy, and so is a parsed 0, hence both map
to 999. -/
def serviceSortKey (serviceNo : String) : ℤ :=
  match jsParseInt serviceNo with
  | none => 999
  | some v => if v = 0 then 999 else v

/-- The NextBus / NextBus2 sub-object of an arrival service record. -/
structure NextBusInfo where
  EstimatedArrival : Option String
  Load : Option String
deriving DecidableEq

/-- One element of arrivalsData.Services. -/
structure BusService where
  ServiceNo : String
  NextBus : Option NextBusInfo
  NextBus2 : Option NextBusInfo
deriving DecidableEq

/-- Truthiness of service.NextBus && service.NextBus.EstimatedArrival, the
filter of src/bot.js 945: the NextBus object must be present and its
EstimatedArrival present and not the empty string (empty strings are falsy). -/
def hasPrimaryEta (s : BusService) : Bool :=
  match s.NextBus with
  | none => false
  | some nb =>
    match nb.EstimatedArrival with
    | none => false
    | some e => decide (e ≠ "")

/-- Optional chain service.NextBus?.EstimatedArrival (src/bot.js 957). -/
def primaryEta (s : BusService) : Option String :=
  s.NextBus.bind fun nb => nb.EstimatedArrival

/-- The sortedServices list of src/bot.js 944-950: presence filter followed by
the stable sort ascending on serviceSortKey. -/
def sortedServices (services : List BusService) : List BusService :=
  List.insertionSort (fun a b => serviceSortKey a.ServiceNo ≤ serviceSortKey b.ServiceNo)
    (services.filter hasPrimaryEta)

/-- The services that actually receive a display line in
formatCombinedBusArrivalsMessage (src/bot.js 944-970): after the presence
filter and the sort, the code slices to 8 services and then, per service,
appends a line only when formatArrivalTime of the primary ETA is not the
sentinel 'No data'; that conditional append over the slice is the final
filter. -/
def displayedServices (parse : String → Option ℤ) (now : ℤ)
    (services : List BusService) : List BusService :=
  ((sortedServices services).take 8).filter fun s =>
    decide (formatArrivalTime parse now (primaryEta s) ≠ "No data")

/-- The displayable-selection pipeline in the order claim C5 states it: first
drop every prediction whose primary ETA is absent, blank, unparsable or more
than 60 minutes away (exactly the predictions formatArrivalTime maps to
'No data'), then sort by the numeric service key, then truncate to 8. -/
def selectDisplayableSpec (parse : String → Option ℤ) (now : ℤ)
    (services : List BusService) : List BusService :=
  (List.insertionSort (fun a b => serviceSortKey a.ServiceNo ≤ serviceSortKey b.ServiceNo)
    (services.filter fun s =>
      decide (formatArrivalTime parse now (primaryEta s) ≠ "No data"))).take 8

/-- Number of authentication header shapes rotated by makeAPIRequest
(src/bot.js 753-775): AccountKey, Bearer, X-API-Key, AccountKey with
Content-Type. -/
def authHeadersCount : Nat := 4

/-- One outbound HTTP attempt of makeAPIRequest: the full request URL, the
0-based index into the four auth header shapes, and the 1-based attempt
number. -/
structure APIAttempt where
  url : String
  headerIndex : Nat
  attempt : Nat
deriving DecidableEq

/-- The retry loop of makeAPIRequest (src/bot.js 777-821).  The oracle respond
gives the outcome of the k-th network attempt; retriesLeft counts the retries
still allowed (attempt a retries while a <= retries, and at attempt a exactly
retries + 1 - a retries remain).  Each attempt uses header format
(attempt - 1) % 4 (src/bot.js 779) and a failed attempt that still has retry
budget sleeps 2 ^ attempt * 1000 milliseconds (src/bot.js 813).  The result
carries the attempt trace and the list of sleep durations. -/
def makeAPIRequestGo {E P : Type} (respond : Nat → Except E P) (url : String) :
    Nat → Nat → Except E P × List APIAttempt × List Nat
  | attempt, 0 =>
    match respond attempt with
    | .ok p => (.ok p, [⟨url, (attempt - 1) % 4, attempt⟩], [])
    | .error e => (.error e, [⟨url, (attempt - 1) % 4, attempt⟩], [])
  | attempt, r + 1 =>
    match respond attempt with
    | .ok p => (.ok p, [⟨url, (attempt - 1) % 4, attempt⟩], [])
    | .error _ =>
      ((makeAPIRequestGo respond url (attempt + 1) r).1,
        ⟨url, (attempt - 1) % 4, attempt⟩ :: (makeAPIRequestGo respond url (attempt + 1) r).2.1,
        2 ^ attempt * 1000 :: (makeAPIRequestGo respond url (attempt + 1) r).2.2)

/-- Default value of the retries parameter of makeAPIRequest (src/bot.js 743). -/
def DEFAULT_RETRIES : Nat := 3

/-- Shallow embedding of makeAPIRequest (src/bot.js 743-821): with no pinned
endpoint it throws 'No working API endpoint available' (modelled as the error
none with an empty trace); otherwise it runs the retry loop against the URL
workingEndpoint/endpoint starting at attempt 1. -/
def makeAPIRequest {E P : Type} (workingEndpoint : Option String) (endpoint : String)
    (respond : Nat → Except E P) (retries : Nat) :
    Except (Option E) P × List APIAttempt × List Nat :=
  match workingEndpoint with
  | none => (.error none, [], [])
  | some base =>
    let r := makeAPIRequestGo respond (base ++ "/" ++ endpoint) 1 retries
    (r.1.mapError some, r.2.1, r.2.2)

/-- One round of the while-loop of getAllBusStops (src/bot.js 839-864).  The
oracle api gives, per skip offset, the outcome of
makeAPIRequest(endpoint, {$skip, $top: 500}) followed by the envelope
extraction data.value || data.data || data: error models a throw, ok a page of
records.  The trace records each request as its (skip, top) parameter pair and
each sleep duration in milliseconds.  The budget argument counts the further
requests the safety check totalRequests > 30 still allows (the n-th request
runs with budget 31 - n, so the first call uses budget 30); recursion is
structural on it. -/
def pageLoop (api : Nat → Except Unit (List BusStop)) :
    Nat → Nat → List BusStop → Except Unit (List BusStop) × List (Nat × Nat) × List Nat
  | 0, skip, acc =>
    match api skip with
    | .error e => (.error e, [(skip, 500)], [])
    | .ok page =>
      if page.length = 0 then (.ok acc, [(skip, 500)], [])
      else (.ok (acc ++ page), [(skip, 500)], if page.length = 500 then [200] else [])
  | b + 1, skip, acc =>
    match api skip with
    | .error e => (.error e, [(skip, 500)], [])
    | .ok page =>
      if page.length = 0 then (.ok acc, [(skip, 500)], [])
      else
        ((pageLoop api b (skip + 500) (acc ++ page)).1,
          (skip, 500) :: (pageLoop api b (skip + 500) (acc ++ page)).2.1,
          (if page.length = 500 then [200] else []) ++
            (pageLoop api b (skip + 500) (acc ++ page)).2.2)

/-- The endpoint variations tried by getAllBusStops (src/bot.js 828). -/
def busStopEndpoints : List String := ["BusStops", "BusStop", "bus-stops"]

/-- The busStopsCache singleton (src/bot.js 637-640). -/
structure BusStopsCache where
  data : List BusStop
  lastUpdated : ℤ
deriving DecidableEq

/-- The endpoint loop of getAllBusStops (src/bot.js 824-882): each endpoint
variation runs the page loop; a thrown request error is caught and the next
variation is tried, an accumulated empty list likewise falls through to the
next variation, and a non-empty accumulated list replaces the cache wholesale
and sets lastUpdated to now.  When every variation has failed the previous
cache data is returned and the cache is left untouched. -/
def getAllBusStopsGo (api : String → Nat → Except Unit (List BusStop))
    (cache : BusStopsCache) (now : ℤ) :
    List String → List BusStop × BusStopsCache
  | [] => (cache.data, cache)
  | e :: rest =>
    match (pageLoop (api e) 30 0 []).1 with
    | .error _ => getAllBusStopsGo api cache now rest
    | .ok stops =>
      if stops.length > 0 then (stops, ⟨stops, now⟩)
      else getAllBusStopsGo api cache now rest

/-- Shallow embedding of getAllBusStops (src/bot.js 824-882). -/
def getAllBusStops (api : String → Nat → Except Unit (List BusStop))
    (cache : BusStopsCache) (now : ℤ) : List BusStop × BusStopsCache :=
  getAllBusStopsGo api cache now busStopEndpoints

/-- The per-stop arrival payload as inspected by getBusArrivals: the code
checks data && (data.Services || data.services || data.BusStopCode), so the
model keeps all three fields optional.  A present array is truthy in
JavaScript even when empty. -/
structure ArrivalData where
  Services : Option (List BusService)
  services : Option (List BusService)
  BusStopCode : Option String
deriving DecidableEq

/-- The endpoint variations tried by getBusArrivals (src/bot.js 909). -/
def arrivalEndpoints : List String := ["BusArrivalv2", "BusArrival", "bus-arrival"]

/-- Truthiness of data.Services || data.services || data.BusStopCode
(src/bot.js 916); a present but empty BusStopCode string is falsy. -/
def arrivalDataAccepted (d : ArrivalData) : Bool :=
  d.Services.isSome || d.services.isSome ||
    (match d.BusStopCode with
     | none => false
     | some c => decide (c ≠ ""))

/-- The endpoint loop of getBusArrivals (src/bot.js 905-928): each resource
path in order; a thrown request error is caught and the next path is tried,
as is a payload that fails the acceptance test; the first accepted payload is
returned.  The trace records the resource paths tried, in order. -/
def getBusArrivalsGo (api : String → Except Unit ArrivalData) :
    List String → Option ArrivalData × List String
  | [] => (none, [])
  | e :: rest =>
    match api e with
    | .error _ =>
      let r := getBusArrivalsGo api rest
      (r.1, e :: r.2)
    | .ok d =>
      if arrivalDataAccepted d then (some d, [e])
      else
        let r := getBusArrivalsGo api rest
        (r.1, e :: r.2)

/-- Shallow embedding of getBusArrivals (src/bot.js 905-928); null on total
failure is modelled as none. -/
def getBusArrivals (api : String → Except Unit ArrivalData) :
    Option ArrivalData × List String :=
  getBusArrivalsGo api arrivalEndpoints

/-- A geocoding hit as built by geocodeAddress in src/bot.js 1003-1007. -/
structure GeoLocation where
  latitude : ℚ
  longitude : ℚ
  address : String
deriving DecidableEq

/-- One entry of response.data.results from the OneMap search API. -/
structure OneMapResult where
  LATITUDE : ℚ
  LONGITUDE : ℚ
  ADDRESS : Option String
  SEARCHVAL : String
deriving DecidableEq

/-- Shallow embedding of geocodeAddress as it stands in src/bot.js 988-1015:
a single OneMap query, whose network outcome is the oracle onemap; a thrown
error or an empty result list yields null, otherwise the first result is
returned with address = result.ADDRESS || result.SEARCHVAL. -/
def geocodeAddress (onemap : String → Except Unit (List OneMapResult))
    (address : String) : Option GeoLocation :=
  match onemap address with
  | .error _ => none
  | .ok [] => none
  | .ok (r :: _) => some ⟨r.LATITUDE, r.LONGITUDE, r.ADDRESS.getD r.SEARCHVAL⟩

/-- Boolean test that the first list is a prefix of the second. -/
def listPrefOf : List Char → List Char → Bool
  | [], _ => true
  | _ :: _, [] => false
  | a :: as, b :: bs => decide (a = b) && listPrefOf as bs

/-- Boolean test that the first list occurs contiguously inside the second. -/
def listSubOf : List Char → List Char → Bool
  | needle, [] => needle.isEmpty
  | needle, hay@(_ :: rest) => listPrefOf needle hay || listSubOf needle rest

/-- Lower-cased, trimmed form of a free-text query, used by the gazetteer
strategies of the geocoding chain. -/
def normalizeQuery (s : String) : String :=
  ⟨(((s.toList.dropWhile Char.isWhitespace).reverse.dropWhile
      Char.isWhitespace).reverse).map Char.toLower⟩

/-- A result of the full geocoding chain, carrying the 1-based number of the
strategy that matched as its provenance. -/
structure GeoResult where
  latitude : ℚ
  longitude : ℚ
  displayAddress : String
  provenance : Nat
deriving DecidableEq

/-- The augmentation terms of strategy 3 of the geocoding chain. -/
def augmentTerms : List String := ["station", "mall"]

/-- Exact gazetteer lookup (strategy 4): the first entry whose key equals the
normalized query. -/
def gazetteerExact (gaz : List (String × ℚ × ℚ)) (q : String) :
    Option (String × ℚ × ℚ) :=
  gaz.find? fun e => decide (e.1 = normalizeQuery q)

/-- Substring gazetteer lookup (strategy 5): the first entry whose key
contains, or is contained in, the normalized query. -/
def gazetteerSub (gaz : List (String × ℚ × ℚ)) (q : String) :
    Option (String × ℚ × ℚ) :=
  gaz.find? fun e =>
    listSubOf (normalizeQuery q).toList e.1.toList ||
      listSubOf e.1.toList (normalizeQuery q).toList

/-- Modelled from the spec: the canonical (latest) revision of the script has a
five-strategy geocoding chain (spec section 4.5) of which the source file under
src contains only strategy 1, the single OneMap query of geocodeAddress
(src/bot.js 988-1015); strategies 2-5 (secondary provider with country
qualifier, augmented query variants, gazetteer exact match, gazetteer substring
match) are not in the source under src and are modelled here from the spec
text.  The oracles remote1 and remote2 are the two remote providers (a per-call
failure, timeout or miss is none), gaz is the static local gazetteer of
name-to-coordinate entries, and the chain returns the first non-empty hit
tagged with the strategy number that produced it, or none (NotFound) after
exhausting all five strategies. -/
def geocodeAddressChain (remote1 remote2 : String → Option (ℚ × ℚ × String))
    (gaz : List (String × ℚ × ℚ)) (q : String) : Option GeoResult :=
  match remote1 q with
  | some (la, lo, ad) => some ⟨la, lo, ad, 1⟩
  | none =>
    match remote2 (q ++ ", Singapore") with
    | some (la, lo, ad) => some ⟨la, lo, ad, 2⟩
    | none =>
      match augmentTerms.findSome? (fun t => remote2 (q ++ " " ++ t ++ ", Singapore")) with
      | some (la, lo, ad) => some ⟨la, lo, ad, 3⟩
      | none =>
        match gazetteerExact gaz q with
        | some e => some ⟨e.2.1, e.2.2, e.1, 4⟩
        | none =>
          match gazetteerSub gaz q with
          | some e => some ⟨e.2.1, e.2.2, e.1, 5⟩
          | none => none

/-! Helper instances and concrete inputs used by the theorems and their
witnesses. -/

instance : IsTotal RankedStop fun a b => a.distance ≤ b.distance :=
  ⟨fun a b => le_total a.distance b.distance⟩

instance : IsTrans RankedStop fun a b => a.distance ≤ b.distance :=
  ⟨fun _ _ _ h₁ h₂ => le_trans h₁ h₂⟩

instance : IsTotal BusService fun a b => serviceSortKey a.ServiceNo ≤ serviceSortKey b.ServiceNo :=
  ⟨fun a b => le_total _ _⟩

instance : IsTrans BusService fun a b => serviceSortKey a.ServiceNo ≤ serviceSortKey b.ServiceNo :=
  ⟨fun _ _ _ h₁ h₂ => le_trans h₁ h₂⟩

/-- A demo stop at a chosen latitude, for concrete witnesses. -/
def demoStop (la : ℚ) : BusStop := ⟨"00000", "Demo", la, 0⟩

/-- The stop set of the end-to-end scenario of spec section 8: stops at
distances 480, 50 and 120 from the origin. -/
def demoStops : List BusStop := [demoStop 480, demoStop 50, demoStop 120]

/-- A concrete distance function for witnesses: the distance of a stop is its
latitude field. -/
def distLat : ℚ → ℚ → ℚ → ℚ → ℚ := fun _ _ la _ => la

/-- C1: for every origin, radius and cached stop list, the nearby-stop query
(findNearbyBusStops followed by the slice to the per-user maxResults of
handleLocationSearch, src/bot.js 1352) returns only stops whose computed
distance from the origin is at most the radius, sorted non-decreasing by the
derived distance field (the computed distance rounded to the nearest metre,
which the code both stores and compares), and returns at most maxResults stops
even when more stops qualify. -/
theorem findNearby_radius_sorted_capped
    (dist : ℚ → ℚ → ℚ → ℚ → ℚ) (userLat userLng : ℚ) (busStops : List BusStop)
    (radiusMeters : ℚ) (maxResults : Nat) :
    (∀ r ∈ (findNearbyBusStops dist userLat userLng busStops radiusMeters).take maxResults,
        r.stop ∈ busStops ∧
        dist userLat userLng r.stop.Latitude r.stop.Longitude ≤ radiusMeters ∧
        r.distance = jsRound (dist userLat userLng r.stop.Latitude r.stop.Longitude)) ∧
    ((findNearbyBusStops dist userLat userLng busStops radiusMeters).take maxResults).Pairwise
      (fun a b => a.distance ≤ b.distance) ∧
    ((findNearbyBusStops dist userLat userLng busStops radiusMeters).take maxResults).length
      ≤ maxResults := by
  refine ⟨?_, ?_, ?_⟩
  · intro r hr
    have hr1 : r ∈ findNearbyBusStops dist userLat userLng busStops radiusMeters :=
      List.mem_of_mem_take hr
    simp only [findNearbyBusStops] at hr1
    have hr2 := List.mem_of_mem_take hr1
    have hr3 := (List.perm_insertionSort _ _).mem_iff.mp hr2
    rcases List.mem_map.mp hr3 with ⟨stop, hstop, rfl⟩
    rcases List.mem_filter.mp hstop with ⟨hmem, hle⟩
    exact ⟨hmem, of_decide_eq_true hle, rfl⟩
  · simp only [findNearbyBusStops]
    exact ((List.sorted_insertionSort _ _).sublist (List.take_sublist _ _)).sublist
      (List.take_sublist _ _)
  · exact List.length_take_le _ _

/-- Closed witness for C1, on the scenario of spec section 8: stops at
distances 480, 50, 120 from the origin with radius 200 give exactly the two
qualifying stops in the order 50, 120. -/
theorem findNearby_radius_sorted_capped_witness :
    (findNearbyBusStops distLat 0 0 demoStops 200).take 5 =
      [⟨demoStop 50, 50⟩, ⟨demoStop 120, 120⟩] ∧
    ((findNearbyBusStops distLat 0 0 demoStops 200).take 5).Pairwise
      (fun a b => a.distance ≤ b.distance) ∧
    ((findNearbyBusStops distLat 0 0 demoStops 200).take 5).length ≤ 5 :=
  ⟨by decide, (findNearby_radius_sorted_capped distLat 0 0 demoStops 200 5).2.1,
    (findNearby_radius_sorted_capped distLat 0 0 demoStops 200 5).2.2⟩

/-- C10: for every located query, the stops included in the reply never exceed
5, even when the maxStops preference (applied as slice(0, maxStops) in
handleLocationSearch, src/bot.js 1352) is 10 or 15, because findNearbyBusStops
already truncated to the global MAX_BUS_STOPS = 5. -/
theorem reply_stops_never_exceed_five
    (dist : ℚ → ℚ → ℚ → ℚ → ℚ) (userLat userLng : ℚ) (busStops : List BusStop)
    (radiusMeters : ℚ) (maxStops : Nat) :
    ((findNearbyBusStops dist userLat userLng busStops radiusMeters).take maxStops).length
      ≤ MAX_BUS_STOPS ∧ MAX_BUS_STOPS = 5 := by
  constructor
  · have h1 : ((findNearbyBusStops dist userLat userLng busStops radiusMeters).take
        maxStops).length ≤ (findNearbyBusStops dist userLat userLng busStops
        radiusMeters).length := by
      rw [List.length_take]
      exact min_le_right _ _
    have h2 : (findNearbyBusStops dist userLat userLng busStops radiusMeters).length
        ≤ MAX_BUS_STOPS := by
      simp only [findNearbyBusStops]
      exact List.length_take_le _ _
    exact le_trans h1 h2
  · rfl

/-- A bulk refresh attempt fails outright when every endpoint variation either
throws or accumulates no records. -/
def refreshFailedAPI (api : String → Nat → Except Unit (List BusStop)) : Prop :=
  ∀ e ∈ busStopEndpoints,
    (pageLoop (api e) 30 0 []).1 = .error () ∨ (pageLoop (api e) 30 0 []).1 = .ok []

/-- Failed refreshes leave the cache untouched and return its prior data, for
any endpoint list. -/
theorem getAllBusStopsGo_failure (api : String → Nat → Except Unit (List BusStop))
    (cache : BusStopsCache) (now : ℤ) (es : List String)
    (h : ∀ e ∈ es, (pageLoop (api e) 30 0 []).1 = .error () ∨
      (pageLoop (api e) 30 0 []).1 = .ok []) :
    getAllBusStopsGo api cache now es = (cache.data, cache) := by
  induction es with
  | nil => rfl
  | cons e rest ih =>
    have he := h e (List.mem_cons_self e rest)
    have hrest := ih fun x hx => h x (List.mem_cons_of_mem _ hx)
    simp only [getAllBusStopsGo]
    rcases he with he | he
    · rw [he]
      exact hrest
    · rw [he]
      simpa using hrest

/-- The cache is either untouched or wholesale-replaced by a non-empty stop
list, for any endpoint list. -/
theorem getAllBusStopsGo_wholesale (api : String → Nat → Except Unit (List BusStop))
    (cache : BusStopsCache) (now : ℤ) (es : List String) :
    (getAllBusStopsGo api cache now es).2 = cache ∨
      ∃ stops, stops ≠ [] ∧ (getAllBusStopsGo api cache now es).2 = ⟨stops, now⟩ ∧
        (getAllBusStopsGo api cache now es).1 = stops := by
  induction es with
  | nil => exact Or.inl rfl
  | cons e rest ih =>
    simp only [getAllBusStopsGo]
    cases hpl : (pageLoop (api e) 30 0 []).1 with
    | error u => exact ih
    | ok stops =>
      by_cases hlen : stops.length > 0
      · right
        refine ⟨stops, ?_, ?_, ?_⟩
        · intro hnil
          rw [hnil] at hlen
          simp at hlen
        · simp [hlen]
        · simp [hlen]
      · simpa [hlen] using ih

/-- C2: if a bulk stop refresh fails (every endpoint variation errors or yields
no records), the cache after the refresh equals the cache before it and the
refresh returns the prior snapshot data; and in every case the cache is only
ever replaced wholesale by a fetch that produced a non-empty accumulated stop
list. -/
theorem getAllBusStops_failed_refresh_preserves_cache
    (api : String → Nat → Except Unit (List BusStop)) (cache : BusStopsCache) (now : ℤ) :
    (refreshFailedAPI api → getAllBusStops api cache now = (cache.data, cache)) ∧
    ((getAllBusStops api cache now).2 = cache ∨
      ∃ stops, stops ≠ [] ∧ (getAllBusStops api cache now).2 = ⟨stops, now⟩ ∧
        (getAllBusStops api cache now).1 = stops) :=
  ⟨fun h => getAllBusStopsGo_failure api cache now busStopEndpoints h,
    getAllBusStopsGo_wholesale api cache now busStopEndpoints⟩

/-- Closed witness for C2: with every request throwing, the refresh returns the
prior snapshot and the cache object is unchanged. -/
theorem getAllBusStops_failed_refresh_preserves_cache_witness :
    getAllBusStops (fun _ _ => Except.error ()) ⟨[demoStop 1], 5⟩ 99 =
      ([demoStop 1], ⟨[demoStop 1], 5⟩) :=
  (getAllBusStops_failed_refresh_preserves_cache (fun _ _ => Except.error ())
    ⟨[demoStop 1], 5⟩ 99).1 (fun _ _ => Or.inl rfl)

/-- A full page of 500 records, used to drive the pagination loop to its safety
limit. -/
def fullPage : List BusStop := List.replicate 500 (demoStop 0)

/-- Length of a full page. -/
theorem fullPage_length : fullPage.length = 500 := by
  unfold fullPage
  rw [List.length_replicate]

/-- When the upstream always returns a full page, the loop issues exactly
budget + 1 page requests before the safety check stops it. -/
theorem pageLoop_const_full_requests (b skip : Nat) (acc : List BusStop) :
    (pageLoop (fun _ => Except.ok fullPage) b skip acc).2.1.length = b + 1 := by
  induction b generalizing skip acc with
  | zero =>
    simp [pageLoop, fullPage_length]
  | succ b ih =>
    simp [pageLoop, fullPage_length, ih (skip + 500) (acc ++ fullPage)]

/-- Counterexample for C8: with an upstream that always returns a full page of
500 records, getAllBusStops' page loop issues 31 page requests, so the claimed
hard safety limit of 30 pages does not hold as stated. -/
theorem pageLoop_exceeds_thirty_pages :
    ¬ ((pageLoop (fun _ => Except.ok fullPage) 30 0 []).2.1.length ≤ 30) := by
  rw [pageLoop_const_full_requests]
  omega

/-- Shifting a cons onto a skip-offset request list re-indexes it from the
next offset. -/
theorem cons_map_range_shift (skip n : Nat) :
    (skip, 500) :: List.map (fun i => (skip + 500 + 500 * i, 500)) (List.range n) =
      List.map (fun i => (skip + 500 * i, 500)) (List.range (n + 1)) := by
  simp only [List.range_succ_eq_map, List.map_cons, List.map_map, Nat.mul_zero,
    Nat.add_zero]
  refine congrArg (List.cons _) ?_
  apply List.map_congr_left
  intro i hi
  simp only [Function.comp_apply, Prod.mk.injEq]
  exact ⟨by omega, trivial⟩

/-- Trace shape of the pagination loop, for any budget, start offset and
accumulator: the requests are exactly the (skip + 500 * i, 500) pairs for
consecutive i, at most budget + 1 requests are issued, and every pause is
200 ms. -/
theorem pageLoop_trace (api : Nat → Except Unit (List BusStop)) (b skip : Nat)
    (acc : List BusStop) :
    ∃ n, (pageLoop api b skip acc).2.1 =
        List.map (fun i => (skip + 500 * i, 500)) (List.range n) ∧
      n ≤ b + 1 ∧
      (∀ s ∈ (pageLoop api b skip acc).2.2, s = 200) := by
  induction b generalizing skip acc with
  | zero =>
    refine ⟨1, ?_, by omega, ?_⟩
    · simp only [pageLoop]
      cases hap : api skip with
      | error u => simp [List.range_succ]
      | ok page =>
        by_cases hlen : page.length = 0
        · simp [hlen, List.range_succ]
        · dsimp only
          rw [if_neg hlen]
          simp [List.range_succ]
    · simp only [pageLoop]
      cases hap : api skip with
      | error u => simp
      | ok page =>
        by_cases hlen : page.length = 0
        · simp [hlen]
        · dsimp only
          rw [if_neg hlen]
          by_cases hfull : page.length = 500
          · simp [hfull]
          · simp [hfull]
  | succ b ih =>
    simp only [pageLoop]
    cases hap : api skip with
    | error u => exact ⟨1, by simp [List.range_succ], by omega, by simp⟩
    | ok page =>
      by_cases hlen : page.length = 0
      · exact ⟨1, by simp [hlen, List.range_succ], by omega, by simp [hlen]⟩
      · obtain ⟨n, ihq, ihl, ihp⟩ := ih (skip + 500) (acc ++ page)
        dsimp only
        rw [if_neg hlen]
        refine ⟨n + 1, ?_, by omega, ?_⟩
        · dsimp only
          rw [ihq, cons_map_range_shift]
        · intro s hs
          dsimp only at hs
          rcases List.mem_append.mp hs with hs | hs
          · by_cases hfull : page.length = 500
            · rw [if_pos hfull] at hs
              simpa using hs
            · rw [if_neg hfull] at hs
              simp at hs
          · exact ihp s hs

/-- A first page that comes back empty ends the loop after a single request,
returning the accumulator. -/
theorem pageLoop_empty_first (api : Nat → Except Unit (List BusStop)) (b skip : Nat)
    (acc : List BusStop) (h : api skip = Except.ok []) :
    pageLoop api (b + 1) skip acc = (.ok acc, [(skip, 500)], []) := by
  simp only [pageLoop]
  rw [h]
  rfl

/-- A first page of 500 records is followed by a 200 ms pause. -/
theorem pageLoop_full_first (api : Nat → Except Unit (List BusStop)) (b skip : Nat)
    (acc : List BusStop) (page : List BusStop) (h : api skip = Except.ok page)
    (hfull : page.length = 500) :
    200 ∈ (pageLoop api (b + 1) skip acc).2.2 := by
  have h0 : ¬ page.length = 0 := by omega
  simp only [pageLoop]
  rw [h]
  simp [h0, hfull]

/-- C8 (amended): the bulk refresh pages with a fixed page size of 500 at skip
offsets 0, 500, 1000, ..., stops at the first empty page, issues at most 31
page requests (the safety check totalRequests > 30 trips only after the 31st
request), and every pause between pages is 200 ms, taken exactly after a page
of 500 records. -/
theorem getAllBusStops_pagination (api : Nat → Except Unit (List BusStop)) :
    (∃ n, n ≤ 31 ∧ (pageLoop api 30 0 []).2.1 =
        List.map (fun i => (500 * i, 500)) (List.range n)) ∧
    (∀ s ∈ (pageLoop api 30 0 []).2.2, s = 200) ∧
    (api 0 = Except.ok [] →
        (pageLoop api 30 0 []).2.1 = [(0, 500)] ∧ (pageLoop api 30 0 []).1 = .ok []) ∧
    (∀ page, api 0 = Except.ok page → page.length = 500 →
        200 ∈ (pageLoop api 30 0 []).2.2) := by
  obtain ⟨n, hq, hl, hp⟩ := pageLoop_trace api 30 0 []
  refine ⟨⟨n, hl, by simpa using hq⟩, hp, ?_, ?_⟩
  · intro h
    have := pageLoop_empty_first api 29 0 [] h
    rw [this]
    exact ⟨rfl, rfl⟩
  · intro page h hfull
    exact pageLoop_full_first api 29 0 [] page h hfull

/-- Closed witness for C8 (amended): an upstream that returns an empty first
page yields a single request at skip 0 with top 500, no pauses, and the empty
dataset. -/
theorem getAllBusStops_pagination_witness :
    (pageLoop (fun _ => Except.ok ([] : List BusStop)) 30 0 []).2.1 = [(0, 500)] ∧
    (pageLoop (fun _ => Except.ok ([] : List BusStop)) 30 0 []).1 = .ok [] :=
  (getAllBusStops_pagination (fun _ => Except.ok ([] : List BusStop))).2.2.1 rfl

/-- Re-indexing an attempt-list cons from the next attempt number. -/
theorem cons_map_range_shift_att (url : String) (a n : Nat) :
    (⟨url, (a - 1) % 4, a⟩ : APIAttempt) ::
        List.map (fun i => (⟨url, (a + 1 + i - 1) % 4, a + 1 + i⟩ : APIAttempt))
          (List.range n) =
      List.map (fun i => (⟨url, (a + i - 1) % 4, a + i⟩ : APIAttempt))
        (List.range (n + 1)) := by
  simp only [List.range_succ_eq_map, List.map_cons, List.map_map, Nat.add_zero]
  refine congrArg (List.cons _) ?_
  apply List.map_congr_left
  intro i hi
  simp only [Function.comp_apply, APIAttempt.mk.injEq]
  exact ⟨trivial, by omega, by omega⟩

/-- Re-indexing a backoff-delay cons from the next attempt number. -/
theorem cons_map_range_shift_pow (a n : Nat) :
    2 ^ a * 1000 :: List.map (fun i => 2 ^ (a + 1 + i) * 1000) (List.range n) =
      List.map (fun i => 2 ^ (a + i) * 1000) (List.range (n + 1)) := by
  simp only [List.range_succ_eq_map, List.map_cons, List.map_map, Nat.add_zero]
  refine congrArg (List.cons _) ?_
  apply List.map_congr_left
  intro i hi
  simp only [Function.comp_apply]
  have h : a + 1 + i = a + i.succ := by omega
  rw [h]

/-- The attempt trace of the retry loop: some initial run of attempts numbered
a, a + 1, ..., each against the same url, with header shape (attempt - 1) % 4,
and at most retriesLeft + 1 attempts in total. -/
theorem makeAPIRequestGo_attempts {E P : Type} (respond : Nat → Except E P)
    (url : String) (a r : Nat) :
    ∃ n, (makeAPIRequestGo respond url a r).2.1 =
        List.map (fun i => (⟨url, (a + i - 1) % 4, a + i⟩ : APIAttempt))
          (List.range n) ∧
      1 ≤ n ∧ n ≤ r + 1 := by
  induction r generalizing a with
  | zero =>
    refine ⟨1, ?_, by omega, by omega⟩
    simp only [makeAPIRequestGo]
    cases respond a with
    | ok p => simp [List.range_succ]
    | error u => simp [List.range_succ]
  | succ r ih =>
    cases hr : respond a with
    | ok p =>
      refine ⟨1, ?_, by omega, by omega⟩
      simp only [makeAPIRequestGo]
      rw [hr]
      simp [List.range_succ]
    | error u =>
      obtain ⟨n, ihq, ihn1, ihn2⟩ := ih (a + 1)
      refine ⟨n + 1, ?_, by omega, by omega⟩
      simp only [makeAPIRequestGo]
      rw [hr]
      dsimp only
      rw [ihq, cons_map_range_shift_att]

/-- When every attempt in the window fails, the retry loop surfaces the last
attempt's error and sleeps 2 ^ attempt * 1000 ms after each failed attempt
that still has retry budget. -/
theorem makeAPIRequestGo_all_fail {E P : Type} (respond : Nat → Except E P)
    (url : String) (e : Nat → E) (r a : Nat)
    (h : ∀ k, a ≤ k → k ≤ a + r → respond k = .error (e k)) :
    (makeAPIRequestGo respond url a r).1 = .error (e (a + r)) ∧
    (makeAPIRequestGo respond url a r).2.2 =
      List.map (fun i => 2 ^ (a + i) * 1000) (List.range r) := by
  induction r generalizing a with
  | zero =>
    have ha := h a (le_refl a) (by omega)
    simp only [makeAPIRequestGo]
    rw [ha]
    exact ⟨rfl, rfl⟩
  | succ r ih =>
    have ha := h a (le_refl a) (by omega)
    simp only [makeAPIRequestGo]
    rw [ha]
    dsimp only
    obtain ⟨ih1, ih2⟩ := ih (a + 1) (fun k hk1 hk2 => h k (by omega) (by omega))
    constructor
    · have hidx : a + 1 + r = a + (r + 1) := by omega
      rw [ih1, hidx]
    · rw [ih2, cons_map_range_shift_pow]

/-- When attempt k succeeds after failures, the retry loop returns the payload
and the sleeps are exactly those of the k - a failed attempts before it. -/
theorem makeAPIRequestGo_success {E P : Type} (respond : Nat → Except E P)
    (url : String) (p : P) (r : Nat) :
    ∀ a k, a ≤ k → k ≤ a + r → respond k = .ok p →
      (∀ j, a ≤ j → j < k → ∃ u, respond j = .error u) →
      (makeAPIRequestGo respond url a r).1 = .ok p ∧
      (makeAPIRequestGo respond url a r).2.2 =
        List.map (fun i => 2 ^ (a + i) * 1000) (List.range (k - a)) := by
  induction r with
  | zero =>
    intro a k hk1 hk2 hok hfail
    have hak : a = k := by omega
    subst hak
    simp only [makeAPIRequestGo]
    rw [hok]
    exact ⟨rfl, by simp [Nat.sub_self]⟩
  | succ r ih =>
    intro a k hk1 hk2 hok hfail
    by_cases hak : a = k
    · subst hak
      simp only [makeAPIRequestGo]
      rw [hok]
      exact ⟨rfl, by simp [Nat.sub_self]⟩
    · obtain ⟨u, hu⟩ := hfail a (le_refl a) (by omega)
      simp only [makeAPIRequestGo]
      rw [hu]
      dsimp only
      obtain ⟨ih1, ih2⟩ := ih (a + 1) k (by omega) (by omega) hok
        (fun j hj1 hj2 => hfail j (by omega) hj2)
      refine ⟨ih1, ?_⟩
      rw [ih2]
      have hsub : k - a = (k - (a + 1)) + 1 := by omega
      rw [hsub]
      exact cons_map_range_shift_pow a (k - (a + 1))

/-- C7: a request that fails on every attempt is retried retries times (so
retries + 1 attempts in all), sleeping 2 ^ attempt seconds (attempt starting
at 1) before each retry, and the last attempt's error is surfaced; a request
that succeeds on some attempt k, the earlier attempts having failed, returns
the payload with no error, having slept only for the k - 1 failed attempts. -/
theorem makeAPIRequest_retry_backoff {E P : Type} (base endpoint : String)
    (respond : Nat → Except E P) (retries : Nat) (e : Nat → E) (p : P) :
    ((∀ k, 1 ≤ k → k ≤ retries + 1 → respond k = .error (e k)) →
      (makeAPIRequest (some base) endpoint respond retries).1 =
        .error (some (e (retries + 1))) ∧
      (makeAPIRequest (some base) endpoint respond retries).2.2 =
        List.map (fun i => 2 ^ (1 + i) * 1000) (List.range retries)) ∧
    (∀ k, 1 ≤ k → k ≤ retries + 1 → respond k = .ok p →
      (∀ j, 1 ≤ j → j < k → ∃ u, respond j = .error u) →
      (makeAPIRequest (some base) endpoint respond retries).1 = .ok p ∧
      (makeAPIRequest (some base) endpoint respond retries).2.2 =
        List.map (fun i => 2 ^ (1 + i) * 1000) (List.range (k - 1))) := by
  constructor
  · intro h
    obtain ⟨h1, h2⟩ := makeAPIRequestGo_all_fail respond (base ++ "/" ++ endpoint) e
      retries 1 (fun k hk1 hk2 => h k hk1 (by omega))
    constructor
    · simp only [makeAPIRequest]
      rw [h1]
      have hidx : 1 + retries = retries + 1 := by omega
      rw [hidx]
      rfl
    · simpa only [makeAPIRequest] using h2
  · intro k hk1 hk2 hok hfail
    obtain ⟨h1, h2⟩ := makeAPIRequestGo_success respond (base ++ "/" ++ endpoint) p
      retries 1 k hk1 (by omega) hok hfail
    constructor
    · simp only [makeAPIRequest]
      rw [h1]
      rfl
    · simpa only [makeAPIRequest] using h2

/-- Closed witness for C7: with every attempt failing, the default 3 retries
sleep 2, 4 and 8 seconds and the final error is surfaced. -/
theorem makeAPIRequest_retry_backoff_witness :
    (makeAPIRequest (some "https://datamall2.mytransport.sg/ltaodataservice") "BusStops"
        (fun _ => (Except.error 7 : Except Nat Nat)) DEFAULT_RETRIES).1 =
      .error (some 7) ∧
    (makeAPIRequest (some "https://datamall2.mytransport.sg/ltaodataservice") "BusStops"
        (fun _ => (Except.error 7 : Except Nat Nat)) DEFAULT_RETRIES).2.2 =
      [2000, 4000, 8000] := by
  have h := (makeAPIRequest_retry_backoff "https://datamall2.mytransport.sg/ltaodataservice"
    "BusStops" (fun _ => (Except.error 7 : Except Nat Nat)) DEFAULT_RETRIES
    (fun _ => 7) 0).1 (fun k hk1 hk2 => rfl)
  refine ⟨h.1, ?_⟩
  rw [h.2]
  decide

/-- A request oracle whose first attempt fails and whose second succeeds, used
to exhibit the auth-header rotation across retries. -/
def respondFailFirst : Nat → Except Unit Nat :=
  fun k => if k = 1 then .error () else .ok 7

/-- Counterexample for C4: the claim that every attempt after discovery uses
one pinned auth header shape is false — a request whose first attempt fails is
retried with a different auth header shape (format 2 instead of format 1),
because makeAPIRequest cycles headers by attempt number instead of reusing the
shape that discovery validated. -/
theorem makeAPIRequest_auth_header_not_pinned :
    ¬ (∀ a₁ ∈ (makeAPIRequest (some "https://datamall2.mytransport.sg/ltaodataservice")
          "BusStops" respondFailFirst DEFAULT_RETRIES).2.1,
        ∀ a₂ ∈ (makeAPIRequest (some "https://datamall2.mytransport.sg/ltaodataservice")
          "BusStops" respondFailFirst DEFAULT_RETRIES).2.1,
        a₁.headerIndex = a₂.headerIndex) := by
  decide

/-- C4 (amended): once discovery has pinned a working endpoint, every attempt
of every subsequent request uses exactly the pinned base URL (no alternate
endpoint is ever re-probed outside the explicit re-test testAPIConnection),
but the auth header shape is not pinned: attempt number i + 1 uses header
shape i % 4, cycling through all four shapes across retries. -/
theorem makeAPIRequest_pinned_url_header_cycle {E P : Type} (base endpoint : String)
    (respond : Nat → Except E P) (retries : Nat) :
    (∀ att ∈ (makeAPIRequest (some base) endpoint respond retries).2.1,
        att.url = base ++ "/" ++ endpoint) ∧
    (∃ n, 1 ≤ n ∧ n ≤ retries + 1 ∧
      (makeAPIRequest (some base) endpoint respond retries).2.1 =
        List.map (fun i => (⟨base ++ "/" ++ endpoint, i % 4, i + 1⟩ : APIAttempt))
          (List.range n)) := by
  obtain ⟨n, hq, hn1, hn2⟩ := makeAPIRequestGo_attempts respond (base ++ "/" ++ endpoint)
    1 retries
  have hq2 : (makeAPIRequest (some base) endpoint respond retries).2.1 =
      List.map (fun i => (⟨base ++ "/" ++ endpoint, i % 4, i + 1⟩ : APIAttempt))
        (List.range n) := by
    simp only [makeAPIRequest]
    rw [hq]
    apply List.map_congr_left
    intro i hi
    simp only [APIAttempt.mk.injEq]
    exact ⟨trivial, by omega, by omega⟩
  refine ⟨?_, n, hn1, hn2, hq2⟩
  intro att hatt
  rw [hq2] at hatt
  rcases List.mem_map.mp hatt with ⟨i, hi, rfl⟩
  rfl

/-- Closed witness for C4 (amended): the first attempt of a request against the
pinned endpoint targets exactly the pinned base URL. -/
theorem makeAPIRequest_pinned_url_header_cycle_witness :
    APIAttempt.url ⟨"https://datamall2.mytransport.sg/ltaodataservice" ++ "/" ++ "BusStops",
        0, 1⟩ =
      "https://datamall2.mytransport.sg/ltaodataservice" ++ "/" ++ "BusStops" :=
  (makeAPIRequest_pinned_url_header_cycle
      "https://datamall2.mytransport.sg/ltaodataservice" "BusStops" respondFailFirst
      DEFAULT_RETRIES).1
    ⟨"https://datamall2.mytransport.sg/ltaodataservice" ++ "/" ++ "BusStops", 0, 1⟩
    (by decide)

/-- Unfolding of formatArrivalTime on a non-blank, parsable timestamp. -/
theorem formatArrivalTime_parsed (parse : String → Option ℤ) (now : ℤ) (s : String)
    (arrival : ℤ) (hs : s ≠ "") (hp : parse s = some arrival) :
    formatArrivalTime parse now (some s) =
      (if diffMinutes now arrival ≤ 0 then "Arriving"
       else if diffMinutes now arrival = 1 then "1 min"
       else if diffMinutes now arrival > 60 then "No data"
       else toString (diffMinutes now arrival) ++ " mins") := by
  simp only [formatArrivalTime, if_neg hs, hp]

/-- C6: the ETA formatter returns the no-data sentinel when the timestamp is
missing, blank or unparsable; on a parsed timestamp it returns the
arriving-now sentinel when the minute difference is 0 or negative, the
singular form at exactly 1, the no-data sentinel above 60 minutes, and the
plural minutes text otherwise. -/
theorem formatArrivalTime_cases (parse : String → Option ℤ) (now : ℤ) :
    formatArrivalTime parse now none = "No data" ∧
    formatArrivalTime parse now (some "") = "No data" ∧
    (∀ s, s ≠ "" → parse s = none → formatArrivalTime parse now (some s) = "No data") ∧
    (∀ s arrival, s ≠ "" → parse s = some arrival →
      ((diffMinutes now arrival ≤ 0 → formatArrivalTime parse now (some s) = "Arriving") ∧
       (diffMinutes now arrival = 1 → formatArrivalTime parse now (some s) = "1 min") ∧
       (diffMinutes now arrival > 60 → formatArrivalTime parse now (some s) = "No data") ∧
       (2 ≤ diffMinutes now arrival → diffMinutes now arrival ≤ 60 →
          formatArrivalTime parse now (some s) =
            toString (diffMinutes now arrival) ++ " mins"))) := by
  refine ⟨rfl, rfl, ?_, ?_⟩
  · intro s hs hp
    simp only [formatArrivalTime, if_neg hs, hp]
  · intro s arrival hs hp
    rw [formatArrivalTime_parsed parse now s arrival hs hp]
    refine ⟨?_, ?_, ?_, ?_⟩
    · intro hd
      rw [if_pos hd]
    · intro hd
      rw [if_neg (by omega), if_pos hd]
    · intro hd
      rw [if_neg (by omega), if_neg (by omega), if_pos hd]
    · intro hd1 hd2
      rw [if_neg (by omega), if_neg (by omega), if_neg (by omega)]

/-- A demo parse oracle: the string t15 parses to minute 15 of the epoch,
everything else is an invalid date. -/
def parseDemo : String → Option ℤ :=
  fun s => if s = "t15" then some 900000 else none

/-- Closed witness for C6, exercising every branch at concrete inputs:
15 minutes out formats as 15 mins, and missing, blank and unparsable
timestamps format as No data. -/
theorem formatArrivalTime_cases_witness :
    formatArrivalTime parseDemo 0 (some "t15") = "15 mins" ∧
    formatArrivalTime parseDemo 0 none = "No data" ∧
    formatArrivalTime parseDemo 0 (some "") = "No data" ∧
    formatArrivalTime parseDemo 0 (some "garbage") = "No data" := by
  have h := formatArrivalTime_cases parseDemo 0
  refine ⟨?_, h.1, h.2.1, h.2.2.1 "garbage" (by decide) (by decide)⟩
  have h15 := (h.2.2.2 "t15" 900000 (by decide) (by decide)).2.2.2
    (by decide) (by decide)
  rw [h15]
  decide

/-- A demo service record with one upcoming bus. -/
def svcDemo (no eta : String) : BusService := ⟨no, some ⟨some eta, none⟩, none⟩

/-- A demo parse oracle for service ETAs: a string parsing as the integer n
denotes minute n of the epoch; non-numeric strings are invalid dates. -/
def parseMinutes : String → Option ℤ :=
  fun s => (jsParseInt s).map (fun n => n * 60000)

/-- Nine services with consecutive service numbers whose first has an
unparsable ETA, separating the two selection pipelines. -/
def nineServices : List BusService :=
  [svcDemo "1" "zz", svcDemo "2" "2", svcDemo "3" "3", svcDemo "4" "4",
   svcDemo "5" "5", svcDemo "6" "6", svcDemo "7" "7", svcDemo "8" "8",
   svcDemo "9" "9"]

/-- Counterexample for C5: the code does not drop unparsable or over-60-minute
ETAs before truncating.  With nine present ETAs of which the lowest-numbered
is unparsable, the claimed pipeline (drop bad ETAs, sort, take 8) keeps 8
services, but the code (sort by presence only, take 8, then drop bad ETAs
line-by-line) displays just 7. -/
theorem displayed_selection_not_spec_order :
    displayedServices parseMinutes 0 nineServices ≠
      selectDisplayableSpec parseMinutes 0 nineServices := by
  decide

/-- C5 (amended): the displayable selection first drops predictions whose
primary ETA is absent or blank, sorts the survivors ascending by the numeric
service key (non-numeric keys become 999), truncates to 8, and only then drops
from those 8 the predictions whose ETA is unparsable or more than 60 minutes
away — so the reply contains at most 8 predictions, sorted by service key,
each present in the input with a present ETA that formats to a real time. -/
theorem displayed_selection (parse : String → Option ℤ) (now : ℤ)
    (services : List BusService) :
    (displayedServices parse now services).length ≤ 8 ∧
    (displayedServices parse now services).Pairwise
      (fun a b => serviceSortKey a.ServiceNo ≤ serviceSortKey b.ServiceNo) ∧
    (∀ s ∈ displayedServices parse now services,
        s ∈ services ∧ hasPrimaryEta s = true ∧
        formatArrivalTime parse now (primaryEta s) ≠ "No data") := by
  refine ⟨?_, ?_, ?_⟩
  · have h1 : (displayedServices parse now services).length ≤
        ((sortedServices services).take 8).length := List.length_filter_le _ _
    exact le_trans h1 (List.length_take_le _ _)
  · unfold displayedServices sortedServices
    exact ((List.sorted_insertionSort _ _).sublist (List.take_sublist _ _)).sublist
      (List.filter_sublist _)
  · intro s hs
    unfold displayedServices at hs
    rcases List.mem_filter.mp hs with ⟨hs1, hs2⟩
    have hs3 := List.mem_of_mem_take hs1
    unfold sortedServices at hs3
    have hs4 := (List.perm_insertionSort _ _).mem_iff.mp hs3
    rcases List.mem_filter.mp hs4 with ⟨hmem, heta⟩
    exact ⟨hmem, heta, of_decide_eq_true hs2⟩

/-- Closed witness for C5 (amended), on the end-to-end scenario of spec
section 8: services 12 (45 min), 5 (3 min) and A1 (malformed ETA) display as
5 then 12, and service 5 satisfies the selection invariants; additionally the
ECMA-262 hex auto-detection of parseInt is exercised — service 0x2 keys as 2
and therefore sorts before service 3. -/
theorem displayed_selection_witness :
    displayedServices parseMinutes 0
        [svcDemo "12" "45", svcDemo "5" "3", svcDemo "A1" "zz"] =
      [svcDemo "5" "3", svcDemo "12" "45"] ∧
    serviceSortKey "0x2" = 2 ∧
    displayedServices parseMinutes 0 [svcDemo "3" "3", svcDemo "0x2" "2"] =
      [svcDemo "0x2" "2", svcDemo "3" "3"] ∧
    (svcDemo "5" "3" ∈ [svcDemo "12" "45", svcDemo "5" "3", svcDemo "A1" "zz"] ∧
      hasPrimaryEta (svcDemo "5" "3") = true ∧
      formatArrivalTime parseMinutes 0 (primaryEta (svcDemo "5" "3")) ≠ "No data") :=
  ⟨by decide, by decide, by decide,
    (displayed_selection parseMinutes 0
        [svcDemo "12" "45", svcDemo "5" "3", svcDemo "A1" "zz"]).2.2
      (svcDemo "5" "3") (by decide)⟩

/-- The endpoints tried by getBusArrivals form an initial prefix of the
three-path list, in order. -/
theorem getBusArrivalsGo_initial_run (api : String → Except Unit ArrivalData)
    (es : List String) :
    (getBusArrivalsGo api es).2 = es.take (getBusArrivalsGo api es).2.length := by
  induction es with
  | nil => rfl
  | cons e rest ih =>
    simp only [getBusArrivalsGo]
    cases hap : api e with
    | error u =>
      dsimp only
      rw [List.length_cons, List.take_succ_cons]
      exact congrArg (List.cons e) ih
    | ok d =>
      dsimp only
      by_cases hacc : arrivalDataAccepted d
      · rw [if_pos hacc]
        rfl
      · rw [if_neg hacc]
        dsimp only
        rw [List.length_cons, List.take_succ_cons]
        exact congrArg (List.cons e) ih

/-- An arrival request attempt against one resource path fails when it throws
or its payload is not accepted. -/
def arrivalAttemptFails (api : String → Except Unit ArrivalData) (e : String) : Prop :=
  (∃ u, api e = .error u) ∨ ∃ d, api e = .ok d ∧ arrivalDataAccepted d = false

/-- When every resource path fails, getBusArrivals reports failure after
trying all of them, in order. -/
theorem getBusArrivalsGo_all_fail (api : String → Except Unit ArrivalData)
    (es : List String) (h : ∀ e ∈ es, arrivalAttemptFails api e) :
    getBusArrivalsGo api es = (none, es) := by
  induction es with
  | nil => rfl
  | cons e rest ih =>
    have hrest := ih fun x hx => h x (List.mem_cons_of_mem _ hx)
    simp only [getBusArrivalsGo]
    rcases h e (List.mem_cons_self e rest) with ⟨u, hu⟩ | ⟨d, hd, hacc⟩
    · rw [hu]
      dsimp only
      rw [hrest]
    · rw [hd]
      dsimp only
      rw [if_neg (by simp [hacc]), hrest]

/-- C9 (amended): per stop, the prediction fetch tries the resource paths
BusArrivalv2, BusArrival and bus-arrival in that order — the primary plus two
alternates, with fallback on any error or unrecognized payload, not only on
404 — returning the first accepted payload and reporting failure only after
all three fail. -/
theorem getBusArrivals_endpoint_fallback (api : String → Except Unit ArrivalData) :
    (getBusArrivals api).2 = arrivalEndpoints.take (getBusArrivals api).2.length ∧
    (getBusArrivals api).2.length ≤ 3 ∧
    (∀ d, api "BusArrivalv2" = .ok d → arrivalDataAccepted d = true →
        getBusArrivals api = (some d, ["BusArrivalv2"])) ∧
    ((∀ e ∈ arrivalEndpoints, arrivalAttemptFails api e) →
        getBusArrivals api = (none, arrivalEndpoints)) := by
  refine ⟨getBusArrivalsGo_initial_run api arrivalEndpoints, ?_, ?_, ?_⟩
  · have h := getBusArrivalsGo_initial_run api arrivalEndpoints
    have h2 : (getBusArrivals api).2.length =
        (arrivalEndpoints.take (getBusArrivals api).2.length).length :=
      congrArg List.length h
    rw [h2, List.length_take]
    exact le_trans (min_le_right _ _) (by rfl)
  · intro d hd hacc
    simp only [getBusArrivals, arrivalEndpoints, getBusArrivalsGo]
    rw [hd]
    dsimp only
    rw [if_pos hacc]
  · intro h
    exact getBusArrivalsGo_all_fail api arrivalEndpoints h

/-- An arrival oracle on which every resource path throws. -/
def apiArrivalsAllFail : String → Except Unit ArrivalData := fun _ => .error ()

/-- Counterexample for C9: when every path fails, the code has tried three
resource paths, not the two (primary plus exactly one alternate) the claim
allows. -/
theorem getBusArrivals_tries_three_paths :
    ¬ ((getBusArrivals apiArrivalsAllFail).2.length ≤ 2) := by
  decide

/-- Closed witness for C9 (amended): with every path failing, the fetch
reports failure after the full three-path trace. -/
theorem getBusArrivals_endpoint_fallback_witness :
    getBusArrivals apiArrivalsAllFail = (none, arrivalEndpoints) ∧
    (getBusArrivals apiArrivalsAllFail).2.length ≤ 3 :=
  ⟨(getBusArrivals_endpoint_fallback apiArrivalsAllFail).2.2.2
      (fun e he => Or.inl ⟨(), rfl⟩),
    (getBusArrivals_endpoint_fallback apiArrivalsAllFail).2.1⟩

/-- C3: the geocoding chain tries its strategies in the fixed order, returning
the first non-empty hit: a primary-provider hit wins outright (provenance 1),
and for an input with no remote hit anywhere the chain still reaches the
gazetteer: an exact match returns with provenance 4, otherwise a substring
match with provenance 5, and NotFound (none) only after both gazetteer
strategies also miss. -/
theorem geocode_chain_strategy_order (remote1 remote2 : String → Option (ℚ × ℚ × String))
    (gaz : List (String × ℚ × ℚ)) (q : String) :
    (∀ la lo ad, remote1 q = some (la, lo, ad) →
        geocodeAddressChain remote1 remote2 gaz q = some ⟨la, lo, ad, 1⟩) ∧
    (remote1 q = none → (∀ s, remote2 s = none) →
      ((∀ e, gazetteerExact gaz q = some e →
          geocodeAddressChain remote1 remote2 gaz q = some ⟨e.2.1, e.2.2, e.1, 4⟩) ∧
       (gazetteerExact gaz q = none → ∀ e, gazetteerSub gaz q = some e →
          geocodeAddressChain remote1 remote2 gaz q = some ⟨e.2.1, e.2.2, e.1, 5⟩) ∧
       (gazetteerExact gaz q = none → gazetteerSub gaz q = none →
          geocodeAddressChain remote1 remote2 gaz q = none))) := by
  constructor
  · intro la lo ad h
    simp only [geocodeAddressChain, h]
  · intro h1 h2
    have haug : (augmentTerms.findSome?
        fun t => (none : Option (ℚ × ℚ × String))) = none := by
      simp [augmentTerms]
    refine ⟨?_, ?_, ?_⟩
    · intro e he
      simp only [geocodeAddressChain, h1, h2, haug, he]
    · intro hex e he
      simp only [geocodeAddressChain, h1, h2, haug, hex, he]
    · intro hex hsub
      simp only [geocodeAddressChain, h1, h2, haug, hex, hsub]

/-- A one-entry gazetteer, for the witness. -/
def gazDemo : List (String × ℚ × ℚ) := [("marina bay sands", 1, 103)]

/-- Closed witness for C3: with both remote providers missing everywhere, a
query whose trimmed lower-cased form matches the gazetteer exactly is resolved
with provenance 4 rather than NotFound. -/
theorem geocode_chain_strategy_order_witness :
    geocodeAddressChain (fun _ => none) (fun _ => none) gazDemo "  Marina Bay Sands " =
      some ⟨1, 103, "marina bay sands", 4⟩ :=
  ((geocode_chain_strategy_order (fun _ => none) (fun _ => none) gazDemo
      "  Marina Bay Sands ").2 rfl (fun s => rfl)).1 ("marina bay sands", 1, 103)
    (by decide)

end SgBusBot
